import Mathlib

/-!
Shallow embedding of the user CRUD service in `src/main.py`: the `usuarios`
table, the `UsuarioCRUD` query-construction layer, the HTTP-route bodies, and
the `Database` scope (commit on normal completion, rollback on error).
-/

/-- A row of the `usuarios` table.  The pydantic model `Usuario` carries
`id : int`, `nome : str`, `email : str`, `ativo : int`. -/
structure Usuario where
  id : Int
  nome : String
  email : String
  ativo : Int
deriving Repr, DecidableEq

/-- The request body `UsuarioCreate`: the three mutable fields, no `id`. -/
structure UsuarioCreate where
  nome : String
  email : String
  ativo : Int
deriving Repr, DecidableEq

/-- The state of the `usuarios` table, as the ordered list of its rows. -/
abbrev Tabela := List Usuario

/-- Case-insensitive character comparison, as used by SQL `ILIKE`. -/
def ciEq (c d : Char) : Bool := c.toLower == d.toLower

/-- A `_` in an `ILIKE` pattern: consume exactly one character of the text,
then continue matching with `cont`. -/
def um_char (cont : List Char → Bool) : List Char → Bool
  | [] => false
  | _ :: s2 => cont s2

/-- An ordinary `ILIKE` pattern character `c`: consume one matching character
of the text, comparing case-insensitively, then continue with `cont`. -/
def literal_char (c : Char) (cont : List Char → Bool) : List Char → Bool
  | [] => false
  | d :: s2 => ciEq c d && cont s2

/-- Postgres `ILIKE` pattern matching (first argument the pattern, second the
text): `%` matches any sequence (some suffix of the text matches the rest of
the pattern), `_` any single character, `\` escapes the next pattern
character, ordinary characters match case-insensitively.  A pattern ending in
a bare `\` matches nothing (Postgres rejects it). -/
def ilike : List Char → List Char → Bool
  | [], s => s.isEmpty
  | c :: ps, s =>
    if c = '%' then s.tails.any (fun s2 => ilike ps s2)
    else if c = '_' then um_char (fun s2 => ilike ps s2) s
    else if c = '\\' then
      match ps, s with
      | c2 :: ps2, d :: s2 => ciEq c2 d && ilike ps2 s2
      | _, _ => false
    else literal_char c (fun s2 => ilike ps s2) s

/-- Case-insensitive substring containment, the spec's reading of the name
filter: some suffix of `nome` starts with `filtro`, comparing lowercased
characters.  This is the spec-side definition that the source's
`ILIKE` pattern is compared against. -/
def ciContains (nome filtro : String) : Bool :=
  nome.toList.tails.any
    (fun s => List.isPrefixOf (filtro.toList.map Char.toLower) (s.map Char.toLower))

/-- `colunas_permitidas = ["id", "nome", "email"]` from
`UsuarioCRUD.listar_com_filtro` (src/main.py:109). -/
def colunas_permitidas : List String := ["id", "nome", "email"]

/-- `ordenador = ordenador if ordenador in colunas_permitidas else "id"`
(src/main.py:110); a Python `None` is not in the list, so it also falls
back to `"id"`. -/
def resolve_ordenador (ordenador : Option String) : String :=
  match ordenador with
  | some s => if colunas_permitidas.contains s then s else "id"
  | none => "id"

/-- Strict lexicographic order on character lists, modelling the text
ordering the store uses for `ORDER BY` on a text column. -/
def lt_chars : List Char → List Char → Bool
  | [], [] => false
  | [], _ :: _ => true
  | _ :: _, [] => false
  | c :: cs, d :: ds => if c < d then true else if d < c then false else lt_chars cs ds

/-- Non-strict text comparison derived from `lt_chars`. -/
def le_str (a b : String) : Bool := !lt_chars b.toList a.toList

/-- Boolean "less or equal" on rows for `ORDER BY coluna ASC`: the resolved
column is one of `id`, `nome`, `email`, any other string having already been
replaced by `id`. -/
def le_coluna (coluna : String) (a b : Usuario) : Bool :=
  if coluna = "nome" then le_str a.nome b.nome
  else if coluna = "email" then le_str a.email b.email
  else a.id ≤ b.id

/-- Insert a row into a list in front of the first row it compares
less-or-equal to. -/
def inserir_ordenado (le : Usuario → Usuario → Bool) (a : Usuario) : Tabela → Tabela
  | [] => [a]
  | b :: t => if le a b then a :: b :: t else b :: inserir_ordenado le a t

/-- `ORDER BY coluna ASC` applied to the filtered rows (src/main.py:111,126):
an ascending sort on the resolved column. -/
def order_by (coluna : String) : Tabela → Tabela
  | [] => []
  | a :: t => inserir_ordenado (le_coluna coluna) a (order_by coluna t)

/-- The `WHERE ativo = %s` condition (src/main.py:116-118): appended only when
`ativo is not None and ativo != -1`. -/
def filtro_ativo (ativo : Option Int) (t : Tabela) : Tabela :=
  match ativo with
  | none => t
  | some v => if v = -1 then t else t.filter (fun r => r.ativo == v)

/-- The `WHERE nome ILIKE %s` condition with parameter `f"%{nome}%"`
(src/main.py:119-121): appended only when `nome` is truthy, so a Python
`None` and the empty string both skip it. -/
def filtro_nome (nome : Option String) (t : Tabela) : Tabela :=
  match nome with
  | none => t
  | some f =>
    if f = "" then t
    else t.filter (fun r => ilike ("%" ++ f ++ "%").toList r.nome.toList)

/-- `UsuarioCRUD.listar_com_filtro` (src/main.py:102-127): the two optional
WHERE conditions joined by AND, then `ORDER BY` on the allow-listed column. -/
def listar_com_filtro (ativo : Option Int) (nome : Option String)
    (ordenador : Option String) (t : Tabela) : Tabela :=
  order_by (resolve_ordenador ordenador) (filtro_nome nome (filtro_ativo ativo t))

/-- Route body `listar_usuarios` (src/main.py:184-190): passes the three query
parameters straight to `listar_com_filtro`. -/
def listar_usuarios (ativo : Option Int) (nome : Option String)
    (ordenador : Option String) (t : Tabela) : Tabela :=
  listar_com_filtro ativo nome ordenador t

/-- `UsuarioCRUD.buscar_por_id` (src/main.py:136-141):
`SELECT * FROM usuarios WHERE id = %s`, all matching rows. -/
def buscar_por_id (usuario_id : Int) (t : Tabela) : Tabela :=
  t.filter (fun r => r.id == usuario_id)

/-- The `SET nome = %s, email = %s, ativo = %s` part of the UPDATE
(src/main.py:132). -/
def aplicar_atualizacao (usuario : UsuarioCreate) (r : Usuario) : Usuario :=
  { r with nome := usuario.nome, email := usuario.email, ativo := usuario.ativo }

/-- `UsuarioCRUD.atualizar` (src/main.py:129-134):
`UPDATE usuarios SET ... WHERE id = %s RETURNING *` through `queryone`, which
`fetchone`s the first returned row (or none); also yields the table after the
update. -/
def atualizar (usuario_id : Int) (usuario : UsuarioCreate) (t : Tabela) :
    Option Usuario × Tabela :=
  (((t.filter (fun r => r.id == usuario_id)).map (aplicar_atualizacao usuario)).head?,
   t.map (fun r => if r.id == usuario_id then aplicar_atualizacao usuario r else r))

/-- `UsuarioCRUD.deletar` (src/main.py:143-148):
`UPDATE usuarios SET ativo = 0 WHERE id = %s AND ativo = 1`. -/
def deletar (usuario_id : Int) (t : Tabela) : Tabela :=
  t.map (fun r => if r.id == usuario_id && r.ativo == 1 then { r with ativo := 0 } else r)

/-- The HTTP outcomes the route bodies can produce. -/
inductive Resp where
  | ok (u : Usuario)
  | noContent
  | notFound (msg : String)
  | serverError (msg : String)
deriving Repr, DecidableEq

/-- Route body `atualizar_usuario` (src/main.py:200-228): look up by id; 404
if absent; otherwise run the UPDATE and 500 if it returns no row.  The two
CRUD calls open separate `Database` connections, so the table may be changed
by other committed requests in between; `interf` is that interference
(`id` when the call runs with no concurrent writer). -/
def atualizar_usuario (usuario_id : Int) (usuario : UsuarioCreate)
    (interf : Tabela → Tabela) (t : Tabela) : Resp × Tabela :=
  if (buscar_por_id usuario_id t).isEmpty then
    (Resp.notFound "Usuario nao encontrado", t)
  else
    match atualizar usuario_id usuario (interf t) with
    | (some row, t2) => (Resp.ok row, t2)
    | (none, t2) => (Resp.serverError "Falha ao atualizar usuario no banco de dados", t2)

/-- Route body `deletar_usuario` (src/main.py:239-247): look up by id
(the lookup ignores the `ativo` flag); 404 only if no row exists; otherwise
run the deactivating UPDATE and answer 204. -/
def deletar_usuario (usuario_id : Int) (t : Tabela) : Resp × Tabela :=
  if (buscar_por_id usuario_id t).isEmpty then
    (Resp.notFound "Usuario nao encontrado ou ja inativo", t)
  else
    (Resp.noContent, deletar usuario_id t)

/-- The column list of the `CREATE TABLE IF NOT EXISTS usuarios` statement in
`UsuarioCRUD.criar_tabela` (src/main.py:86-92): `id`, `nome`, `email` -
and nothing else. -/
def criar_tabela_colunas : List String := ["id", "nome", "email"]

/-- The column list of the INSERT in `UsuarioCRUD.criar` (src/main.py:98):
`INSERT INTO usuarios(nome, email, ativo) ...`. -/
def criar_insert_colunas : List String := ["nome", "email", "ativo"]

/-- The columns of the record model (`Usuario`): id, nome, email, ativo. -/
def modelo_colunas : List String := ["id", "nome", "email", "ativo"]

/-- Running the statements of one `Database` scope in order; a failing
statement aborts the rest and surfaces its error. -/
def run_stmts (stmts : List (Tabela → Except String Tabela)) (t : Tabela) :
    Except String Tabela :=
  match stmts with
  | [] => Except.ok t
  | f :: fs =>
    match f t with
    | Except.ok t2 => run_stmts fs t2
    | Except.error e => Except.error e

/-- `Database.__exit__` (src/main.py:45-51): if no exception was raised the
transaction is committed (the second component, the store state seen after the
scope, is the new state); on any exception it is rolled back (the store state
stays as it was) and the error propagates (the first component). -/
def db_scope (stmts : List (Tabela → Except String Tabela)) (t : Tabela) :
    Except String Tabela × Tabela :=
  match run_stmts stmts t with
  | Except.ok t2 => (Except.ok t2, t2)
  | Except.error e => (Except.error e, t)

/-! ## Helper lemmas -/

theorem mem_inserir_ordenado (le : Usuario → Usuario → Bool) (a u : Usuario)
    (t : Tabela) : u ∈ inserir_ordenado le a t ↔ u = a ∨ u ∈ t := by
  induction t with
  | nil => simp [inserir_ordenado]
  | cons b t ih =>
    simp only [inserir_ordenado]
    split
    · simp
    · simp only [List.mem_cons, ih]
      tauto

theorem mem_order_by (coluna : String) (u : Usuario) (t : Tabela) :
    u ∈ order_by coluna t ↔ u ∈ t := by
  induction t with
  | nil => simp [order_by]
  | cons a t ih => simp [order_by, mem_inserir_ordenado, ih]

/-! ## The claims -/

/-- C9: for every table state, name filter and sort key, `list` called with
`ativo = -1` returns exactly the same result as `list` with `ativo` absent:
both skip the `ativo = %s` condition entirely, `-1` being the accepted
"no filter" sentinel. -/
theorem listar_ativo_menos_um_igual_sem_filtro (nome : Option String)
    (ordenador : Option String) (t : Tabela) :
    listar_com_filtro (some (-1)) nome ordenador t =
      listar_com_filtro none nome ordenador t := by
  simp [listar_com_filtro, filtro_ativo]

/-- C10: for every table state, `list` called with the empty string as name
filter behaves identically to `list` with the name filter absent: the empty
string is treated as "no name filter", not as a substring pattern. -/
theorem listar_nome_vazio_igual_sem_filtro (ativo : Option Int)
    (ordenador : Option String) (t : Tabela) :
    listar_com_filtro ativo (some "") ordenador t =
      listar_com_filtro ativo none ordenador t := by
  simp [listar_com_filtro, filtro_nome]

/-- C1: for every requested sort key outside the allow-list
`["id", "nome", "email"]` - including an absent one and injection strings -
the list operation behaves identically to the list operation with sort key
`"id"`: the requested string is replaced by `"id"` before any use, so it is
never used as a sort column and the call never errors. -/
theorem listar_ordenador_fora_da_lista_usa_id (ativo : Option Int)
    (nome : Option String) (ordenador : Option String) (t : Tabela)
    (h : ∀ s, ordenador = some s → colunas_permitidas.contains s = false) :
    listar_com_filtro ativo nome ordenador t =
      listar_com_filtro ativo nome (some "id") t := by
  have hres : resolve_ordenador ordenador = "id" := by
    cases ordenador with
    | none => rfl
    | some s =>
      have h2 : s ∉ colunas_permitidas := by simpa using h s rfl
      simp [resolve_ordenador, h2]
  have hid : resolve_ordenador (some "id") = "id" := by decide
  rw [listar_com_filtro, listar_com_filtro, hres, hid]

/-- C1 witness: the injection string `"; DROP TABLE users"` is not in the
allow-list, and listing with it as sort key coincides with listing sorted by
`"id"` on a concrete two-row table. -/
theorem listar_ordenador_fora_da_lista_usa_id_witness :
    colunas_permitidas.contains "; DROP TABLE users" = false ∧
    listar_com_filtro none none (some "; DROP TABLE users")
        [⟨2, "B", "b@x", 1⟩, ⟨1, "A", "a@x", 0⟩] =
      listar_com_filtro none none (some "id")
        [⟨2, "B", "b@x", 1⟩, ⟨1, "A", "a@x", 0⟩] :=
  ⟨by decide,
   listar_ordenador_fora_da_lista_usa_id none none (some "; DROP TABLE users")
     [⟨2, "B", "b@x", 1⟩, ⟨1, "A", "a@x", 0⟩]
     (by intro s hs; cases hs; decide)⟩

/-- C4: the claim requires both the `email` column and the `ativo` column to
appear in the `CREATE TABLE` statement.  In the source the creation statement
has `email` but omits `ativo`, even though the INSERT of the create operation
references `ativo` and the record model carries it: the creation statement
contradicts the rest of the code. -/
theorem criar_tabela_omite_coluna_ativo :
    criar_tabela_colunas.contains "email" = true ∧
    criar_tabela_colunas.contains "ativo" = false ∧
    criar_insert_colunas.contains "ativo" = true ∧
    modelo_colunas.contains "ativo" = true := by decide

/-- C8: a data-access scope commits when its statements complete normally
(the state after the scope is the state the statements produced) and rolls
back when any statement errors (the state after the scope is the state from
before the scope), the error propagating unchanged. -/
theorem db_scope_commita_ou_reverte
    (stmts : List (Tabela → Except String Tabela)) (t : Tabela) :
    (∀ t2, run_stmts stmts t = Except.ok t2 →
      db_scope stmts t = (Except.ok t2, t2)) ∧
    (∀ e, run_stmts stmts t = Except.error e →
      db_scope stmts t = (Except.error e, t)) := by
  constructor <;> intro x h <;> simp [db_scope, h]

/-- C8 witness: a scope whose single statement fails leaves a concrete
one-row table unchanged and surfaces the error. -/
theorem db_scope_commita_ou_reverte_witness :
    run_stmts [fun _ => Except.error "boom"] [⟨1, "Ana", "a@x", 1⟩] =
      Except.error "boom" ∧
    db_scope [fun _ => Except.error "boom"] [⟨1, "Ana", "a@x", 1⟩] =
      (Except.error "boom", [⟨1, "Ana", "a@x", 1⟩]) :=
  ⟨rfl,
   (db_scope_commita_ou_reverte [fun _ => Except.error "boom"]
     [⟨1, "Ana", "a@x", 1⟩]).2 "boom" rfl⟩

/-- C2: with no name filter and default ordering, `list` with the active
filter unset returns all records; with filter `1` (true) exactly the records
with `ativo = 1`; and - when every stored flag is binary, as the boolean
column guarantees - with filter `0` (false) exactly the complement of the
filter-`1` result. -/
theorem listar_filtro_ativo_particiona (t : Tabela) (u : Usuario)
    (hbin : ∀ r ∈ t, r.ativo = 0 ∨ r.ativo = 1) :
    (u ∈ listar_com_filtro none none none t ↔ u ∈ t) ∧
    (u ∈ listar_com_filtro (some 1) none none t ↔ u ∈ t ∧ u.ativo = 1) ∧
    (u ∈ listar_com_filtro (some 0) none none t ↔
      u ∈ t ∧ u ∉ listar_com_filtro (some 1) none none t) := by
  have h1 : ∀ a, u ∈ listar_com_filtro a none none t ↔ u ∈ filtro_ativo a t := by
    intro a
    simp [listar_com_filtro, filtro_nome, mem_order_by]
  have e1 : filtro_ativo (some 1) t = t.filter (fun r => r.ativo == 1) := by
    rw [filtro_ativo, if_neg (by decide)]
  have e0 : filtro_ativo (some 0) t = t.filter (fun r => r.ativo == 0) := by
    rw [filtro_ativo, if_neg (by decide)]
  refine ⟨by simpa [filtro_ativo] using h1 none, ?_, ?_⟩
  · rw [h1, e1]
    simp [List.mem_filter]
  · rw [h1, e0]
    simp only [h1, e1, List.mem_filter, beq_iff_eq]
    constructor
    · rintro ⟨hu, h0⟩
      exact ⟨hu, fun hc => by omega⟩
    · rintro ⟨hu, hn⟩
      refine ⟨hu, ?_⟩
      rcases hbin u hu with h0 | hone
      · exact h0
      · exact absurd ⟨hu, hone⟩ hn

/-- C2 witness: on a concrete two-row table with one active and one inactive
row, the three equivalences hold for the inactive row. -/
theorem listar_filtro_ativo_particiona_witness :
    (∀ r ∈ ([⟨1, "A", "a@x", 1⟩, ⟨2, "B", "b@x", 0⟩] : Tabela),
      r.ativo = 0 ∨ r.ativo = 1) ∧
    ((⟨2, "B", "b@x", 0⟩ : Usuario) ∈
        listar_com_filtro (some 0) none none [⟨1, "A", "a@x", 1⟩, ⟨2, "B", "b@x", 0⟩] ↔
      (⟨2, "B", "b@x", 0⟩ : Usuario) ∈ ([⟨1, "A", "a@x", 1⟩, ⟨2, "B", "b@x", 0⟩] : Tabela) ∧
      (⟨2, "B", "b@x", 0⟩ : Usuario) ∉
        listar_com_filtro (some 1) none none [⟨1, "A", "a@x", 1⟩, ⟨2, "B", "b@x", 0⟩]) :=
  ⟨by decide,
   (listar_filtro_ativo_particiona [⟨1, "A", "a@x", 1⟩, ⟨2, "B", "b@x", 0⟩]
     ⟨2, "B", "b@x", 0⟩ (by decide)).2.2⟩

/-- C5: for every id matching no row of the table, the update route answers
not-found without running the UPDATE, and the table is returned unchanged -
whatever happens between the lookup scope and the (never opened) update
scope. -/
theorem atualizar_usuario_inexistente_404 (usuario_id : Int)
    (usuario : UsuarioCreate) (interf : Tabela → Tabela) (t : Tabela)
    (h : ∀ r ∈ t, r.id ≠ usuario_id) :
    atualizar_usuario usuario_id usuario interf t =
      (Resp.notFound "Usuario nao encontrado", t) := by
  have hb : (buscar_por_id usuario_id t).isEmpty = true := by
    simp only [buscar_por_id, List.isEmpty_iff, List.filter_eq_nil_iff, beq_iff_eq]
    exact h
  simp [atualizar_usuario, hb]

/-- C5 witness: updating id 5 in a concrete one-row table with id 1 answers
not-found and leaves the row intact. -/
theorem atualizar_usuario_inexistente_404_witness :
    (∀ r ∈ ([⟨1, "Ana", "a@x", 1⟩] : Tabela), r.id ≠ 5) ∧
    atualizar_usuario 5 ⟨"Bia", "b@x", 0⟩ id [⟨1, "Ana", "a@x", 1⟩] =
      (Resp.notFound "Usuario nao encontrado", [⟨1, "Ana", "a@x", 1⟩]) :=
  ⟨by decide,
   atualizar_usuario_inexistente_404 5 ⟨"Bia", "b@x", 0⟩ id
     [⟨1, "Ana", "a@x", 1⟩] (by decide)⟩

/-- C3 counterexample: on a table whose only row has id 1 and is already
inactive (`ativo = 0`), the delete route answers 204 no-content - not the
404 the claim requires for an already-inactive record - because the lookup
`SELECT * FROM usuarios WHERE id = %s` finds the row regardless of its flag;
the guarded UPDATE then touches nothing. -/
theorem deletar_usuario_ja_inativo_responde_204 :
    deletar_usuario 1 [⟨1, "Ana", "a@x", 0⟩] =
      (Resp.noContent, [⟨1, "Ana", "a@x", 0⟩]) := by decide

/-- C3 (amended): the delete route answers 404 exactly when no row with the
requested id exists, and then performs no mutation; whenever a row with that
id exists - active or not - it answers 204, the store update only clearing
the flag of currently-active matching rows; in particular when every matching
row is already inactive the table is left completely unchanged. -/
theorem deletar_usuario_comportamento (usuario_id : Int) (t : Tabela) :
    ((∀ r ∈ t, r.id ≠ usuario_id) →
      deletar_usuario usuario_id t =
        (Resp.notFound "Usuario nao encontrado ou ja inativo", t)) ∧
    ((∃ r ∈ t, r.id = usuario_id) →
      (deletar_usuario usuario_id t).1 = Resp.noContent ∧
      (deletar_usuario usuario_id t).2 = deletar usuario_id t) ∧
    ((∀ r ∈ t, r.id = usuario_id → r.ativo ≠ 1) →
      deletar usuario_id t = t) := by
  refine ⟨?_, ?_, ?_⟩
  · intro h
    have hb : (buscar_por_id usuario_id t).isEmpty = true := by
      simp only [buscar_por_id, List.isEmpty_iff, List.filter_eq_nil_iff, beq_iff_eq]
      exact h
    simp [deletar_usuario, hb]
  · rintro ⟨r, hr, hid⟩
    have hb : (buscar_por_id usuario_id t).isEmpty = false := by
      simp only [List.isEmpty_eq_false, ne_eq, buscar_por_id, List.filter_eq_nil_iff,
        beq_iff_eq, not_forall]
      exact ⟨r, hr, by simpa using hid⟩
    simp [deletar_usuario, hb]
  · intro h
    rw [deletar]
    have hcong : ∀ r ∈ t,
        (if r.id == usuario_id && r.ativo == 1 then { r with ativo := 0 } else r) = id r := by
      intro r hr
      have : (r.id == usuario_id && r.ativo == 1) = false := by
        rcases eq_or_ne r.id usuario_id with he | he
        · simp [he, h r hr he]
        · simp [he]
      rw [this]
      rfl
    rw [List.map_congr_left hcong, List.map_id]

/-- C3 witness: deleting id 2 from a concrete table holding only id 1
answers 404 and leaves the table untouched. -/
theorem deletar_usuario_comportamento_witness :
    (∀ r ∈ ([⟨1, "Ana", "a@x", 0⟩] : Tabela), r.id ≠ 2) ∧
    deletar_usuario 2 [⟨1, "Ana", "a@x", 0⟩] =
      (Resp.notFound "Usuario nao encontrado ou ja inativo", [⟨1, "Ana", "a@x", 0⟩]) :=
  ⟨by decide, (deletar_usuario_comportamento 2 [⟨1, "Ana", "a@x", 0⟩]).1 (by decide)⟩

/-- C6: when a row with the requested id exists and no concurrent writer
interferes (`interf = id`), the update route replaces the three mutable
fields of every matching row and answers 200 with the returned row carrying
exactly the new `nome`, `email` and `ativo` and the unchanged id; and when
the existence check passes but the UPDATE scope sees a table where the id is
gone, the route answers the 500 consistency fault, which is distinct from
every not-found answer. -/
theorem atualizar_usuario_existente_atualiza (usuario_id : Int)
    (usuario : UsuarioCreate) (t : Tabela) :
    ((∃ r ∈ t, r.id = usuario_id) →
      ∃ row,
        atualizar_usuario usuario_id usuario id t =
          (Resp.ok row,
           t.map (fun r => if r.id == usuario_id then aplicar_atualizacao usuario r else r)) ∧
        row.id = usuario_id ∧ row.nome = usuario.nome ∧
        row.email = usuario.email ∧ row.ativo = usuario.ativo) ∧
    (∀ interf, (∃ r ∈ t, r.id = usuario_id) →
      (∀ r ∈ interf t, r.id ≠ usuario_id) →
      (atualizar_usuario usuario_id usuario interf t).1 =
        Resp.serverError "Falha ao atualizar usuario no banco de dados" ∧
      ∀ msg, (atualizar_usuario usuario_id usuario interf t).1 ≠ Resp.notFound msg) := by
  constructor
  · rintro ⟨r, hr, hid⟩
    have hb : (buscar_por_id usuario_id t).isEmpty = false := by
      simp only [List.isEmpty_eq_false, ne_eq, buscar_por_id, List.filter_eq_nil_iff,
        beq_iff_eq, not_forall]
      exact ⟨r, hr, by simpa using hid⟩
    cases hf : t.filter (fun r => r.id == usuario_id) with
    | nil =>
      exfalso
      have : r ∈ t.filter (fun r => r.id == usuario_id) :=
        List.mem_filter.mpr ⟨hr, by simpa using hid⟩
      rw [hf] at this
      exact absurd this (List.not_mem_nil r)
    | cons r0 rest =>
      have hr0 : r0 ∈ t.filter (fun r => r.id == usuario_id) := by
        rw [hf]; exact List.mem_cons_self r0 rest
      have hr0id : r0.id = usuario_id := by
        simpa using (List.mem_filter.mp hr0).2
      refine ⟨aplicar_atualizacao usuario r0, ?_, ?_, rfl, rfl, rfl⟩
      · rw [atualizar_usuario]
        simp only [hb, Bool.false_eq_true, if_false, id_eq, atualizar, hf, List.map_cons,
          List.head?_cons]
      · simpa [aplicar_atualizacao] using hr0id
  · intro interf hex h
    have hb : (buscar_por_id usuario_id t).isEmpty = false := by
      obtain ⟨r, hr, hid⟩ := hex
      simp only [List.isEmpty_eq_false, ne_eq, buscar_por_id, List.filter_eq_nil_iff,
        beq_iff_eq, not_forall]
      exact ⟨r, hr, by simpa using hid⟩
    have hf : (interf t).filter (fun r => r.id == usuario_id) = [] := by
      simp only [List.filter_eq_nil_iff, beq_iff_eq]
      exact h
    have : atualizar_usuario usuario_id usuario interf t =
        (Resp.serverError "Falha ao atualizar usuario no banco de dados",
         (interf t).map (fun r => if r.id == usuario_id then aplicar_atualizacao usuario r else r)) := by
      rw [atualizar_usuario]
      simp only [hb, Bool.false_eq_true, if_false, atualizar, hf, List.map_nil,
        List.head?_nil]
    rw [this]
    exact ⟨rfl, fun msg => by simp⟩

/-- C6 witness: updating the only row (id 1) of a concrete table with new
values answers 200 with the fully-replaced row, id unchanged. -/
theorem atualizar_usuario_existente_atualiza_witness :
    (∃ r ∈ ([⟨1, "Ana", "a@x", 1⟩] : Tabela), r.id = 1) ∧
    ∃ row,
      atualizar_usuario 1 ⟨"Bia", "b@x", 0⟩ id [⟨1, "Ana", "a@x", 1⟩] =
        (Resp.ok row,
         ([⟨1, "Ana", "a@x", 1⟩] : Tabela).map
           (fun r => if r.id == 1 then aplicar_atualizacao ⟨"Bia", "b@x", 0⟩ r else r)) ∧
      row.id = 1 ∧ row.nome = "Bia" ∧ row.email = "b@x" ∧ row.ativo = 0 :=
  ⟨⟨⟨1, "Ana", "a@x", 1⟩, by decide⟩,
   (atualizar_usuario_existente_atualiza 1 ⟨"Bia", "b@x", 0⟩
     [⟨1, "Ana", "a@x", 1⟩]).1 ⟨⟨1, "Ana", "a@x", 1⟩, by decide⟩⟩

/-! ## ILIKE characterization -/

theorem ilike_pct_unfold (ps : List Char) (s : List Char) :
    ilike ('%' :: ps) s = s.tails.any (fun s2 => ilike ps s2) := by
  rw [ilike.eq_def]
  simp

theorem ilike_lit_unfold (c : Char) (ps : List Char) (s : List Char)
    (h1 : c ≠ '%') (h2 : c ≠ '_') (h3 : c ≠ '\\') :
    ilike (c :: ps) s = literal_char c (fun s2 => ilike ps s2) s := by
  rw [ilike.eq_def]
  simp [h1, h2, h3]

theorem ilike_nil_unfold (s : List Char) : ilike [] s = s.isEmpty := by
  rw [ilike.eq_def]

/-- A wildcard-free pattern followed by `%` matches exactly the texts whose
lowering starts with the lowering of the pattern. -/
theorem ilike_literal_pct (f : List Char)
    (hf : ∀ c ∈ f, c ≠ '%' ∧ c ≠ '_' ∧ c ≠ '\\') (s : List Char) :
    ilike (f ++ ['%']) s =
      List.isPrefixOf (f.map Char.toLower) (s.map Char.toLower) := by
  induction f generalizing s with
  | nil =>
    simp only [List.nil_append, List.map_nil]
    rw [ilike_pct_unfold]
    have h2 : s.tails.any (fun s2 => ilike [] s2) = true := by
      rw [List.any_eq_true]
      exact ⟨[], by simp [List.mem_tails], by rw [ilike_nil_unfold]; rfl⟩
    rw [h2]
    simp [List.isPrefixOf]
  | cons c f ih =>
    obtain ⟨hc1, hc2, hc3⟩ := hf c (List.mem_cons_self c f)
    have hf2 : ∀ x ∈ f, x ≠ '%' ∧ x ≠ '_' ∧ x ≠ '\\' :=
      fun x hx => hf x (List.mem_cons_of_mem c hx)
    rw [List.cons_append, ilike_lit_unfold c (f ++ ['%']) s hc1 hc2 hc3]
    cases s with
    | nil => simp [literal_char, List.isPrefixOf]
    | cons d s2 =>
      rw [literal_char]
      rw [ih hf2 s2]
      simp [List.isPrefixOf, ciEq]

/-- The pattern `%f%` built by the code, for wildcard-free `f`, matches
exactly the texts with a suffix whose lowering starts with the lowering of
`f` - that is, the texts containing `f` case-insensitively. -/
theorem ilike_pct_pct (f : List Char)
    (hf : ∀ c ∈ f, c ≠ '%' ∧ c ≠ '_' ∧ c ≠ '\\') (s : List Char) :
    ilike ('%' :: (f ++ ['%'])) s =
      s.tails.any (fun s2 =>
        List.isPrefixOf (f.map Char.toLower) (s2.map Char.toLower)) := by
  rw [ilike_pct_unfold]
  congr 1
  funext s2
  rw [ilike_literal_pct f hf s2]

theorem pct_pattern_toList (f : String) :
    ("%" ++ f ++ "%").toList = '%' :: (f.toList ++ ['%']) := by
  show (("%" ++ f ++ "%").data) = '%' :: (f.data ++ ['%'])
  rw [String.data_append, String.data_append]
  rfl

theorem ciContains_filtro_vazio (nome : String) : ciContains nome "" = true := by
  rw [ciContains, List.any_eq_true]
  exact ⟨nome.toList, by simp [List.mem_tails], by simp [List.isPrefixOf]⟩

/-- C7 counterexample: with the name filter `"%"` the list operation returns
the row named `"Pedro"`, although `"Pedro"` does not contain `"%"` as a
case-insensitive substring: the filter string is interpolated into the
`ILIKE` pattern unescaped, so its wildcards act as wildcards, refuting the
claim for arbitrary filter strings. -/
theorem listar_filtro_nome_curinga_contraexemplo :
    listar_com_filtro none (some "%") none [⟨1, "Pedro", "p@x", 1⟩] =
      [⟨1, "Pedro", "p@x", 1⟩] ∧
    ciContains "Pedro" "%" = false := by decide

/-- C7 (amended): for every name filter string free of the `ILIKE`
metacharacters `%`, `_` and `\`, the list operation returns exactly the
records whose name contains the filter as a case-insensitive substring; an
absent name filter matches all records. -/
theorem listar_filtro_nome_substring (t : Tabela) (filtro : String) (u : Usuario)
    (hf : ∀ c ∈ filtro.toList, c ≠ '%' ∧ c ≠ '_' ∧ c ≠ '\\') :
    (u ∈ listar_com_filtro none (some filtro) none t ↔
      u ∈ t ∧ ciContains u.nome filtro = true) ∧
    (u ∈ listar_com_filtro none none none t ↔ u ∈ t) := by
  constructor
  · rw [listar_com_filtro]
    simp only [filtro_ativo]
    rw [mem_order_by, filtro_nome]
    by_cases hemp : filtro = ""
    · subst hemp
      rw [if_pos rfl]
      simp [ciContains_filtro_vazio]
    · rw [if_neg hemp, List.mem_filter]
      have hpat : ∀ r : Usuario,
          ilike ("%" ++ filtro ++ "%").toList r.nome.toList =
            ciContains r.nome filtro := by
        intro r
        rw [pct_pattern_toList, ilike_pct_pct filtro.toList hf, ciContains]
      rw [hpat u]
  · simp [listar_com_filtro, filtro_nome, filtro_ativo, mem_order_by]

/-- C7 witness: the filter `"ana"` is metacharacter-free, and on a concrete
table the row named `"SILVANA"` is listed exactly because `"SILVANA"`
contains `"ana"` case-insensitively. -/
theorem listar_filtro_nome_substring_witness :
    (∀ c ∈ ("ana" : String).toList, c ≠ '%' ∧ c ≠ '_' ∧ c ≠ '\\') ∧
    ((⟨1, "SILVANA", "s@x", 1⟩ : Usuario) ∈
        listar_com_filtro none (some "ana") none
          [⟨1, "SILVANA", "s@x", 1⟩, ⟨2, "Pedro", "p@x", 1⟩] ↔
      (⟨1, "SILVANA", "s@x", 1⟩ : Usuario) ∈
        ([⟨1, "SILVANA", "s@x", 1⟩, ⟨2, "Pedro", "p@x", 1⟩] : Tabela) ∧
      ciContains "SILVANA" "ana" = true) :=
  ⟨by decide,
   (listar_filtro_nome_substring [⟨1, "SILVANA", "s@x", 1⟩, ⟨2, "Pedro", "p@x", 1⟩]
     "ana" ⟨1, "SILVANA", "s@x", 1⟩ (by decide)).1⟩
